import Mathlib

/-!
Verification of the COSE key module of libcose (`src/cose_key.c`,
`include/cose/key.h`): the key data model, the curve-to-key-type
resolver inside `cose_key_set_keys`, and the two header-encoding
functions `cose_key_protected_to_map` / `cose_key_unprotected_to_map`.

Machine integers are modelled as `Nat`/`Int`; a C pointer to a byte
buffer is modelled as `Option (List Nat)` (`none` = NULL, `some bs` =
the bytes the pointer designates).  The nanocbor encoder is an external
collaborator whose sources are not part of this repository; it is
modelled from the interface description given by the specification
(emit a signed integer, emit a byte string of explicit length) as a
trace of appended CBOR items.
-/

namespace LibCose

/-- Modelled from the spec: the registry constants of `cose_defines.h`
(not under `src/`).  Key-type tags match RFC 8152 Table 21 and RFC 8230
(OKP = 1, EC2 = 2, RSA = 3, Symmetric = 4). -/
def COSE_KTY_OCTET : Nat := 1

/-- Modelled from the spec: EC2 key-type tag (RFC 8152 Table 21). -/
def COSE_KTY_EC2 : Nat := 2

/-- Modelled from the spec: RSA key-type tag (RFC 8230). -/
def COSE_KTY_RSA : Nat := 3

/-- Modelled from the spec: symmetric key-type tag (RFC 8152 Table 21). -/
def COSE_KTY_SYMM : Nat := 4

/-- Modelled from the spec: curve identifiers (RFC 8152 Table 22),
from `cose_defines.h` which is not under `src/`. -/
def COSE_EC_CURVE_P256 : Nat := 1

/-- Modelled from the spec: curve identifier P-384. -/
def COSE_EC_CURVE_P384 : Nat := 2

/-- Modelled from the spec: curve identifier P-521. -/
def COSE_EC_CURVE_P521 : Nat := 3

/-- Modelled from the spec: curve identifier X25519. -/
def COSE_EC_CURVE_X25519 : Nat := 4

/-- Modelled from the spec: curve identifier X448. -/
def COSE_EC_CURVE_X448 : Nat := 5

/-- Modelled from the spec: curve identifier Ed25519. -/
def COSE_EC_CURVE_ED25519 : Nat := 6

/-- Modelled from the spec: curve identifier Ed448. -/
def COSE_EC_CURVE_ED448 : Nat := 7

/-- Modelled from the spec: the "algorithm" header label, wire label 1
(RFC 8152 section 3.1), from `cose_defines.h` which is not under `src/`. -/
def COSE_HDR_ALG : Int := 1

/-- Modelled from the spec: the "key identifier" header label, wire
label 4 (RFC 8152 section 3.1). -/
def COSE_HDR_KID : Int := 4

/-- A C byte-buffer pointer: `none` is NULL, `some bs` designates the
bytes `bs`. -/
abbrev BufPtr : Type := Option (List Nat)

/-- The `cose_key_t` structure of `include/cose/key.h`: key-type tag,
algorithm, curve, key identifier with explicit length, EC/OKP material
`x`/`y`/`d`, and RSA material `n`/`e`.  All buffer fields are borrowed
pointers. -/
structure cose_key_t where
  kty : Nat
  algo : Int
  crv : Nat
  kid : BufPtr
  kid_len : Nat
  x : BufPtr
  y : BufPtr
  d : BufPtr
  n : BufPtr
  e : BufPtr
deriving DecidableEq, Repr

/-- `cose_key_init`: `memset(key, 0, sizeof(cose_key_t))` — every tag
becomes 0, every pointer NULL, `kid_len` 0. -/
def cose_key_init (_key : cose_key_t) : cose_key_t :=
  { kty := 0, algo := 0, crv := 0, kid := none, kid_len := 0,
    x := none, y := none, d := none, n := none, e := none }

/-- `cose_key_set_keys_rsa`: sets `kty = COSE_KTY_RSA`, stores `algo`,
`n`, `e`; touches no other field. -/
def cose_key_set_keys_rsa (key : cose_key_t) (algo : Int)
    (n e : BufPtr) : cose_key_t :=
  { key with kty := COSE_KTY_RSA, algo := algo, n := n, e := e }

/-- `cose_key_set_keys`: the switch on `curve` resolves `kty`
(P-256/P-384/P-521 to EC2, X25519/X448/Ed25519/Ed448 to OKP, default
to SYMM), then `crv`, `algo`, `x`, `y`, `d` are stored. -/
def cose_key_set_keys (key : cose_key_t) (curve : Nat) (algo : Int)
    (x y d : BufPtr) : cose_key_t :=
  let kty :=
    if curve = COSE_EC_CURVE_P256 ∨ curve = COSE_EC_CURVE_P384 ∨
       curve = COSE_EC_CURVE_P521 then
      COSE_KTY_EC2
    else if curve = COSE_EC_CURVE_X25519 ∨ curve = COSE_EC_CURVE_X448 ∨
       curve = COSE_EC_CURVE_ED25519 ∨ curve = COSE_EC_CURVE_ED448 then
      COSE_KTY_OCTET
    else
      COSE_KTY_SYMM
  { key with kty := kty, crv := curve, algo := algo, x := x, y := y, d := d }

/-- `cose_key_set_kid`: stores the identifier pointer and its explicit
byte length. -/
def cose_key_set_kid (key : cose_key_t) (kid : BufPtr) (len : Nat) :
    cose_key_t :=
  { key with kid := kid, kid_len := len }

/-- A CBOR data item appended to an encoder: integers and byte strings
are what this module emits; map framing items exist so that "does not
open or close the map" is expressible. -/
inductive CborItem where
  | int (v : Int)
  | bstr (b : List Nat)
  | mapStart (len : Nat)
  | mapEnd
deriving DecidableEq, Repr

/-- The bytes a `(pointer, length)` pair designates: `len` bytes read
from the buffer, none from NULL. -/
def ptrBytes (buf : BufPtr) (len : Nat) : List Nat :=
  match buf with
  | none => []
  | some bs => bs.take len

/-- Modelled from the spec: the nanocbor map encoder (external
collaborator, sources not under `src/`), abstracted as the trace of
CBOR items appended so far. -/
abbrev nanocbor_encoder_t : Type := List CborItem

/-- Modelled from the spec: `nanocbor_fmt_int` — emit a signed integer
value. -/
def nanocbor_fmt_int (map : nanocbor_encoder_t) (v : Int) :
    nanocbor_encoder_t :=
  map ++ [CborItem.int v]

/-- Modelled from the spec: `nanocbor_put_bstr` — emit a byte string
given pointer plus length, including zero length. -/
def nanocbor_put_bstr (map : nanocbor_encoder_t) (buf : BufPtr)
    (len : Nat) : nanocbor_encoder_t :=
  map ++ [CborItem.bstr (ptrBytes buf len)]

/-- Modelled from the spec: `nanocbor_fmt_map` — open a map of the
given length (map framing; not called by this module). -/
def nanocbor_fmt_map (map : nanocbor_encoder_t) (len : Nat) :
    nanocbor_encoder_t :=
  map ++ [CborItem.mapStart len]

/-- `cose_key_protected_to_map`: emits `COSE_HDR_ALG` then `key->algo`
as CBOR integers into the open map; returns void in C, so only the
encoder state comes back. -/
def cose_key_protected_to_map (key : cose_key_t)
    (map : nanocbor_encoder_t) : nanocbor_encoder_t :=
  nanocbor_fmt_int (nanocbor_fmt_int map COSE_HDR_ALG) key.algo

/-- `cose_key_unprotected_to_map`: emits `COSE_HDR_KID` then the `kid`
bytes (`kid_len` of them) as a CBOR byte string. -/
def cose_key_unprotected_to_map (key : cose_key_t)
    (map : nanocbor_encoder_t) : nanocbor_encoder_t :=
  nanocbor_put_bstr (nanocbor_fmt_int map COSE_HDR_KID) key.kid key.kid_len

/-- Modelled from the spec: a second encoder model exposing encoder
exhaustion (destination map out of space) as in the specification's
error-handling section — `room` counts the items the destination can
still hold, and each primitive reports 0 on success or `-1`
(exhaustion) to its caller. -/
structure EncWithRoom where
  items : List CborItem
  room : Nat
deriving DecidableEq, Repr

/-- Modelled from the spec: fallible integer emission — appends and
reports 0 when the destination has room, otherwise leaves the state
unchanged and reports a negative result. -/
def fmt_int_chk (map : EncWithRoom) (v : Int) : EncWithRoom × Int :=
  if map.room = 0 then (map, -1)
  else ({ items := map.items ++ [CborItem.int v], room := map.room - 1 }, 0)

/-- Modelled from the spec: fallible byte-string emission, same
exhaustion discipline as `fmt_int_chk`. -/
def put_bstr_chk (map : EncWithRoom) (buf : BufPtr) (len : Nat) :
    EncWithRoom × Int :=
  if map.room = 0 then (map, -1)
  else ({ items := map.items ++ [CborItem.bstr (ptrBytes buf len)],
          room := map.room - 1 }, 0)

/-- `cose_key_protected_to_map` over the fallible encoder model: the C
body calls the two primitives, discards their result codes (the C
function returns void), and hands back only the encoder state. -/
def cose_key_protected_to_map_chk (key : cose_key_t)
    (map : EncWithRoom) : EncWithRoom :=
  (fmt_int_chk (fmt_int_chk map COSE_HDR_ALG).1 key.algo).1

/-- `cose_key_unprotected_to_map` over the fallible encoder model,
result codes discarded exactly as in the C body. -/
def cose_key_unprotected_to_map_chk (key : cose_key_t)
    (map : EncWithRoom) : EncWithRoom :=
  (put_bstr_chk (fmt_int_chk map COSE_HDR_KID).1 key.kid key.kid_len).1

/-- Reading zero bytes from any buffer pointer yields the empty byte
string. -/
theorem ptrBytes_zero (buf : BufPtr) : ptrBytes buf 0 = [] := by
  cases buf <;> simp [ptrBytes]

/-- A concrete all-zero key, used to instantiate universally quantified
theorems at sample inputs. -/
def emptyKey : cose_key_t :=
  { kty := 0, algo := 0, crv := 0, kid := none, kid_len := 0,
    x := none, y := none, d := none, n := none, e := none }

/-- A concrete EC2 key (P-256, ES256, one-byte kid), sample input. -/
def keyA : cose_key_t :=
  { kty := COSE_KTY_EC2, algo := -7, crv := COSE_EC_CURVE_P256,
    kid := some [1], kid_len := 1,
    x := some [10], y := some [11], d := some [12], n := none, e := none }

/-- A key agreeing with `keyA` on `algo`, `kid` and `kid_len` but
differing in every other field, sample input. -/
def keyB : cose_key_t :=
  { kty := COSE_KTY_RSA, algo := -7, crv := 0,
    kid := some [1], kid_len := 1,
    x := none, y := none, d := none, n := some [13], e := some [14] }

/-- C1: for every curve argument, `cose_key_set_keys` sets `kty`
according to the resolver table — EC2 for P-256/P-384/P-521, OKP for
X25519/X448/Ed25519/Ed448, SYMM for any curve value outside both
sets. -/
theorem setKeys_kty_resolver (key : cose_key_t) (curve : Nat)
    (algo : Int) (x y d : BufPtr) :
    ((curve = COSE_EC_CURVE_P256 ∨ curve = COSE_EC_CURVE_P384 ∨
        curve = COSE_EC_CURVE_P521) →
      (cose_key_set_keys key curve algo x y d).kty = COSE_KTY_EC2) ∧
    ((curve = COSE_EC_CURVE_X25519 ∨ curve = COSE_EC_CURVE_X448 ∨
        curve = COSE_EC_CURVE_ED25519 ∨ curve = COSE_EC_CURVE_ED448) →
      (cose_key_set_keys key curve algo x y d).kty = COSE_KTY_OCTET) ∧
    ((¬(curve = COSE_EC_CURVE_P256 ∨ curve = COSE_EC_CURVE_P384 ∨
          curve = COSE_EC_CURVE_P521) ∧
      ¬(curve = COSE_EC_CURVE_X25519 ∨ curve = COSE_EC_CURVE_X448 ∨
          curve = COSE_EC_CURVE_ED25519 ∨ curve = COSE_EC_CURVE_ED448)) →
      (cose_key_set_keys key curve algo x y d).kty = COSE_KTY_SYMM) := by
  refine ⟨fun h => ?_, fun h => ?_, fun h => ?_⟩
  · rcases h with h | h | h <;> subst h <;> rfl
  · rcases h with h | h | h | h <;> subst h <;> rfl
  · obtain ⟨hA, hB⟩ := h
    simp [cose_key_set_keys, hA, hB]

/-- Witness for C1 at the concrete curves P-256, X25519 and the
unregistered value 99. -/
theorem setKeys_kty_resolver_witness :
    (cose_key_set_keys emptyKey COSE_EC_CURVE_P256 0 none none none).kty =
      COSE_KTY_EC2 ∧
    (cose_key_set_keys emptyKey COSE_EC_CURVE_X25519 0 none none none).kty =
      COSE_KTY_OCTET ∧
    (cose_key_set_keys emptyKey 99 0 none none none).kty = COSE_KTY_SYMM :=
  ⟨(setKeys_kty_resolver emptyKey COSE_EC_CURVE_P256 0 none none none).1
      (Or.inl rfl),
   (setKeys_kty_resolver emptyKey COSE_EC_CURVE_X25519 0 none none none).2.1
      (Or.inl rfl),
   (setKeys_kty_resolver emptyKey 99 0 none none none).2.2 (by decide)⟩

/-- C2: for every prior key state, `cose_key_set_keys_rsa` sets
`kty = RSA` and stores `algo`, `n`, `e`, leaving `x`, `y`, `d` and
`crv` unchanged. -/
theorem setKeysRsa_sets_and_frames (key : cose_key_t) (algo : Int)
    (n e : BufPtr) :
    (cose_key_set_keys_rsa key algo n e).kty = COSE_KTY_RSA ∧
    (cose_key_set_keys_rsa key algo n e).algo = algo ∧
    (cose_key_set_keys_rsa key algo n e).n = n ∧
    (cose_key_set_keys_rsa key algo n e).e = e ∧
    (cose_key_set_keys_rsa key algo n e).x = key.x ∧
    (cose_key_set_keys_rsa key algo n e).y = key.y ∧
    (cose_key_set_keys_rsa key algo n e).d = key.d ∧
    (cose_key_set_keys_rsa key algo n e).crv = key.crv :=
  ⟨rfl, rfl, rfl, rfl, rfl, rfl, rfl, rfl⟩

/-- C3: for every key and open map encoder,
`cose_key_protected_to_map` appends exactly the two CBOR integers
`COSE_HDR_ALG` and `key.algo` — nothing else, no map framing, and the
appended output depends on no other field of the key. -/
theorem protected_to_map_appends (key : cose_key_t)
    (map : nanocbor_encoder_t) :
    cose_key_protected_to_map key map =
      map ++ [CborItem.int COSE_HDR_ALG, CborItem.int key.algo] := by
  simp [cose_key_protected_to_map, nanocbor_fmt_int]

/-- C4: `cose_key_unprotected_to_map` appends exactly the key-id label
and the kid bytes as a CBOR byte string; with `kid_len = 0` the second
item is an explicit zero-length byte string, not an omitted entry. -/
theorem unprotected_to_map_appends (key : cose_key_t)
    (map : nanocbor_encoder_t) :
    cose_key_unprotected_to_map key map =
      map ++ [CborItem.int COSE_HDR_KID,
              CborItem.bstr (ptrBytes key.kid key.kid_len)] ∧
    (key.kid_len = 0 → cose_key_unprotected_to_map key map =
      map ++ [CborItem.int COSE_HDR_KID, CborItem.bstr []]) := by
  constructor
  · simp [cose_key_unprotected_to_map, nanocbor_fmt_int, nanocbor_put_bstr]
  · intro h
    simp [cose_key_unprotected_to_map, nanocbor_fmt_int, nanocbor_put_bstr,
      h, ptrBytes_zero]

/-- Witness for C4 on the all-zero key, whose `kid_len` is 0. -/
theorem unprotected_to_map_appends_witness :
    cose_key_unprotected_to_map emptyKey [] =
      [] ++ [CborItem.int COSE_HDR_KID, CborItem.bstr []] :=
  (unprotected_to_map_appends emptyKey []).2 rfl

/-- C5: the two encode functions make no failure report of their own —
their C return type is void, modelled here as returning only the
encoder state — and they never propagate the error of the underlying
map encoder: on an exhausted destination the nanocbor primitives
report a negative result, yet both functions hand back just the
(unchanged) encoder state with no success/failure result, despite the
declared contract in `key.h` promising 0 on success and a negative
value on error. -/
theorem encode_discards_encoder_error (key : cose_key_t)
    (map : EncWithRoom) (h : map.room = 0) :
    (fmt_int_chk map COSE_HDR_ALG).2 < 0 ∧
    cose_key_protected_to_map_chk key map = map ∧
    (fmt_int_chk map COSE_HDR_KID).2 < 0 ∧
    cose_key_unprotected_to_map_chk key map = map := by
  refine ⟨?_, ?_, ?_, ?_⟩ <;>
    simp [fmt_int_chk, put_bstr_chk, cose_key_protected_to_map_chk,
      cose_key_unprotected_to_map_chk, h]

/-- Witness for C5 on an empty destination with no room left. -/
theorem encode_discards_encoder_error_witness :
    (fmt_int_chk ⟨[], 0⟩ COSE_HDR_ALG).2 < 0 ∧
    cose_key_protected_to_map_chk emptyKey ⟨[], 0⟩ = ⟨[], 0⟩ ∧
    (fmt_int_chk ⟨[], 0⟩ COSE_HDR_KID).2 < 0 ∧
    cose_key_unprotected_to_map_chk emptyKey ⟨[], 0⟩ = ⟨[], 0⟩ :=
  encode_discards_encoder_error emptyKey ⟨[], 0⟩ rfl

/-- C6: `cose_key_set_keys` on a key previously set by
`cose_key_set_keys_rsa` replaces `kty`, `crv`, `algo`, `x`, `y`, `d`
with the new values (the same ones a direct call would produce), and
both encode functions give output identical to that of the directly
set key — no residual RSA field influences it. -/
theorem setKeys_after_rsa_replaces (key : cose_key_t) (algo0 : Int)
    (n0 e0 : BufPtr) (curve : Nat) (algo : Int) (x y d : BufPtr)
    (map mapU : nanocbor_encoder_t) :
    (cose_key_set_keys (cose_key_set_keys_rsa key algo0 n0 e0)
        curve algo x y d).kty =
      (cose_key_set_keys key curve algo x y d).kty ∧
    (cose_key_set_keys (cose_key_set_keys_rsa key algo0 n0 e0)
        curve algo x y d).crv = curve ∧
    (cose_key_set_keys (cose_key_set_keys_rsa key algo0 n0 e0)
        curve algo x y d).algo = algo ∧
    (cose_key_set_keys (cose_key_set_keys_rsa key algo0 n0 e0)
        curve algo x y d).x = x ∧
    (cose_key_set_keys (cose_key_set_keys_rsa key algo0 n0 e0)
        curve algo x y d).y = y ∧
    (cose_key_set_keys (cose_key_set_keys_rsa key algo0 n0 e0)
        curve algo x y d).d = d ∧
    cose_key_protected_to_map
        (cose_key_set_keys (cose_key_set_keys_rsa key algo0 n0 e0)
          curve algo x y d) map =
      cose_key_protected_to_map (cose_key_set_keys key curve algo x y d)
        map ∧
    cose_key_unprotected_to_map
        (cose_key_set_keys (cose_key_set_keys_rsa key algo0 n0 e0)
          curve algo x y d) mapU =
      cose_key_unprotected_to_map (cose_key_set_keys key curve algo x y d)
        mapU :=
  ⟨rfl, rfl, rfl, rfl, rfl, rfl, rfl, rfl⟩

/-- C7: `cose_key_init` zeroes every field — both tags and the curve
become 0, a value distinct from every registered key type, `kid_len`
becomes 0, and all six buffer pointers become NULL. -/
theorem init_resets_all_fields (key : cose_key_t) :
    (cose_key_init key).kty = 0 ∧
    (cose_key_init key).kty ≠ COSE_KTY_EC2 ∧
    (cose_key_init key).kty ≠ COSE_KTY_OCTET ∧
    (cose_key_init key).kty ≠ COSE_KTY_SYMM ∧
    (cose_key_init key).kty ≠ COSE_KTY_RSA ∧
    (cose_key_init key).algo = 0 ∧
    (cose_key_init key).crv = 0 ∧
    (cose_key_init key).kid = none ∧
    (cose_key_init key).kid_len = 0 ∧
    (cose_key_init key).x = none ∧
    (cose_key_init key).y = none ∧
    (cose_key_init key).d = none ∧
    (cose_key_init key).n = none ∧
    (cose_key_init key).e = none := by
  refine ⟨rfl, ?_, ?_, ?_, ?_, rfl, rfl, rfl, rfl, rfl, rfl, rfl, rfl, rfl⟩ <;>
    simp [cose_key_init, COSE_KTY_EC2, COSE_KTY_OCTET, COSE_KTY_SYMM,
      COSE_KTY_RSA]

/-- C8: after `cose_key_init`, both encode functions are
deterministic — any two runs, from any two prior key states, append
the same items: the algorithm label followed by the zero `algo`
value, and the kid label followed by an empty byte string. -/
theorem init_then_encode_deterministic (k1 k2 : cose_key_t)
    (map : nanocbor_encoder_t) :
    cose_key_protected_to_map (cose_key_init k1) map =
      map ++ [CborItem.int COSE_HDR_ALG, CborItem.int 0] ∧
    cose_key_unprotected_to_map (cose_key_init k1) map =
      map ++ [CborItem.int COSE_HDR_KID, CborItem.bstr []] ∧
    cose_key_protected_to_map (cose_key_init k1) map =
      cose_key_protected_to_map (cose_key_init k2) map ∧
    cose_key_unprotected_to_map (cose_key_init k1) map =
      cose_key_unprotected_to_map (cose_key_init k2) map := by
  refine ⟨?_, ?_, rfl, rfl⟩ <;>
    simp [cose_key_protected_to_map, cose_key_unprotected_to_map,
      cose_key_init, nanocbor_fmt_int, nanocbor_put_bstr, ptrBytes]

/-- C9: `cose_key_set_keys` leaves `kid`, `kid_len`, `n` and `e`
unchanged — a key identifier set before the call survives it, and
stale `n`/`e` references stored by an earlier `cose_key_set_keys_rsa`
call remain in the structure. -/
theorem setKeys_frames_kid_and_rsa (key : cose_key_t) (curve : Nat)
    (algo : Int) (x y d : BufPtr) (kid : BufPtr) (klen : Nat)
    (algo0 : Int) (n0 e0 : BufPtr) :
    (cose_key_set_keys key curve algo x y d).kid = key.kid ∧
    (cose_key_set_keys key curve algo x y d).kid_len = key.kid_len ∧
    (cose_key_set_keys key curve algo x y d).n = key.n ∧
    (cose_key_set_keys key curve algo x y d).e = key.e ∧
    (cose_key_set_keys (cose_key_set_kid key kid klen)
        curve algo x y d).kid = kid ∧
    (cose_key_set_keys (cose_key_set_kid key kid klen)
        curve algo x y d).kid_len = klen ∧
    (cose_key_set_keys (cose_key_set_keys_rsa key algo0 n0 e0)
        curve algo x y d).n = n0 ∧
    (cose_key_set_keys (cose_key_set_keys_rsa key algo0 n0 e0)
        curve algo x y d).e = e0 :=
  ⟨rfl, rfl, rfl, rfl, rfl, rfl, rfl, rfl⟩

/-- C10: the items appended by `cose_key_protected_to_map` depend only
on `algo`, and those of `cose_key_unprotected_to_map` only on `kid`
and `kid_len`: keys agreeing on the respective fields yield identical
appended output. -/
theorem encode_output_field_dependence (k1 k2 : cose_key_t)
    (map : nanocbor_encoder_t) :
    (k1.algo = k2.algo →
      cose_key_protected_to_map k1 map = cose_key_protected_to_map k2 map) ∧
    (k1.kid = k2.kid → k1.kid_len = k2.kid_len →
      cose_key_unprotected_to_map k1 map =
        cose_key_unprotected_to_map k2 map) := by
  constructor
  · intro h
    simp [cose_key_protected_to_map, nanocbor_fmt_int, h]
  · intro h1 h2
    simp [cose_key_unprotected_to_map, nanocbor_fmt_int, nanocbor_put_bstr,
      h1, h2]

/-- Witness for C10: `keyA` and `keyB` agree on `algo`, `kid` and
`kid_len` while differing on every other field, and encode
identically. -/
theorem encode_output_field_dependence_witness :
    cose_key_protected_to_map keyA [] = cose_key_protected_to_map keyB [] ∧
    cose_key_unprotected_to_map keyA [] =
      cose_key_unprotected_to_map keyB [] :=
  ⟨(encode_output_field_dependence keyA keyB []).1 rfl,
   (encode_output_field_dependence keyA keyB []).2 rfl rfl⟩

end LibCose
